import Mathlib

/-!
Verification of the City Data Reporter (`reporter.py`).

The program prompts for a city, fetches current weather from the
OpenWeatherMap HTTP API, prints a summary, appends one row to
`city_data.csv`, and reads the file back to report cumulative entries.

Shallow embedding conventions:
  * Python/JSON values are modelled by the inductive `Json`; JSON numbers
    are rationals (the Python code manipulates them with `round`, `float`
    and `int`, modelled exactly over `ℚ`; binary floating-point
    representation error is outside the model).
  * A Python `dict` decoded from JSON is an association list
    `List (String × Json)` without duplicate keys (the `json` module
    already deduplicates); `pyGet` is `dict.get(k)` returning `none`
    when the key is absent.
  * Functions that can raise return `Except PyErr _`.  The reporter's
    intentional `raise ValueError(msg)` is `PyErr.valueError msg`;
    crashes of the untyped code on unexpected shapes (`.get` on a
    non-dict, subscripting a non-sequence) are `attributeError`,
    `typeError`, `keyError` — these are NOT caught by `main`'s
    `except ValueError` handler.
  * The CSV file is modelled at row granularity:
    `FileState = Option (List Row)` with `none` = file does not exist and
    `some []` = existing zero-length file.  A `Row` is the list of the
    fields of one CSV line.
  * OS-level failures (the `OSError` branch of `write_row_to_csv`,
    permission errors) are outside the model: `stat`/`exists` are assumed
    to succeed, as the spec's §7 also leaves file-I/O errors unhandled.
-/

/-- A JSON value / the Python runtime value decoded from JSON. -/
inductive Json where
  | null : Json
  | bool (b : Bool) : Json
  | num (q : ℚ) : Json
  | str (s : String) : Json
  | arr (elems : List Json) : Json
  | obj (fields : List (String × Json)) : Json

/-- Errors a modelled Python function can raise.  `valueError` is the
only kind raised deliberately by `reporter.py` and the only kind caught
by `main`'s `except ValueError` block. -/
inductive PyErr where
  | valueError (msg : String) : PyErr
  | attributeError : PyErr
  | typeError : PyErr
  | keyError : PyErr
  deriving DecidableEq

/-- Python truthiness of a decoded JSON value (`bool(x)`): `None`, `False`,
`0`, `""`, `[]` and `{}` are falsy, everything else truthy. -/
def truthy : Json → Bool
  | .null => false
  | .bool b => b
  | .num q => !(q == 0)
  | .str s => !s.isEmpty
  | .arr xs => !xs.isEmpty
  | .obj fs => !fs.isEmpty

/-- `d.get(k)` on a Python dict: the stored value, or `none` if the key is
absent.  (A stored JSON `null` is returned as `some Json.null`.) -/
def pyGet (fs : List (String × Json)) (k : String) : Option Json :=
  match fs.find? (fun p => p.fst == k) with
  | some p => some p.snd
  | none => none

/-- `d.get(k, default)` on a Python dict: the stored value (even if it is
`null`/`None`) when the key is present, otherwise the default. -/
def pyGetD (fs : List (String × Json)) (k : String) (d : Json) : Json :=
  (pyGet fs k).getD d

/-- `d.get(k)` as used in truth tests against `None`: a stored JSON `null`
is Python `None`, indistinguishable from an absent key. -/
def pyGetNone (fs : List (String × Json)) (k : String) : Option Json :=
  match pyGet fs k with
  | some .null => none
  | o => o

/-- Python `str(x)` as used by f-string interpolation on the values this
program can interpolate.  Integral rationals render like Python ints;
the rendering of non-integral numbers and of lists/dicts is abbreviated
(no claim exercises those cases). -/
def pyStr : Json → String
  | .null => "None"
  | .bool true => "True"
  | .bool false => "False"
  | .num q => if q.den = 1 then toString q.num else toString q.num ++ "/" ++ toString q.den
  | .str s => s
  | .arr _ => "[...]"
  | .obj _ => "\x7b...\x7d"

/-- An HTTP response as seen by `fetch_weather` once `requests.get`
returned: a status code and the JSON decoding of the body (`none` when
`resp.json()` raises `json.JSONDecodeError`, in which case the code
falls back to `data = {}`).  A transport-level `requests.RequestException`
happens before any response exists and is outside this type. -/
structure HttpResponse where
  status : ℕ
  jsonBody : Option Json

/-- `fetch_weather` after the HTTP exchange: status dispatch of
`reporter.py`.  200 returns the decoded body unmodified; 401/404/other
raise `ValueError`s with the messages of the source; a 404/other body
that decoded to a non-dict crashes on `data.get` with `AttributeError`. -/
def fetch_weather (resp : HttpResponse) : Except PyErr Json :=
  let data := resp.jsonBody.getD (.obj [])
  if resp.status = 200 then .ok data
  else if resp.status = 401 then
    .error (.valueError "Unauthorized (401): Invalid or missing API key.")
  else if resp.status = 404 then
    match data with
    | .obj fs => .error (.valueError ("Not found (404): " ++ pyStr (pyGetD fs "message" (.str "City not found."))))
    | _ => .error .attributeError
  else
    match data with
    | .obj fs => .error (.valueError ("API error (" ++ toString resp.status ++ "): " ++ pyStr (pyGetD fs "message" (.str "Unexpected error"))))
    | _ => .error .attributeError

/-- Round half to even to the nearest integer: the rounding Python's
built-in `round` documents (ties go to the even neighbour). -/
def roundHalfEven (q : ℚ) : ℤ :=
  if q - (⌊q⌋ : ℚ) < 1/2 then ⌊q⌋
  else if 1/2 < q - (⌊q⌋ : ℚ) then ⌊q⌋ + 1
  else if ⌊q⌋ % 2 = 0 then ⌊q⌋ else ⌊q⌋ + 1

/-- `round(x, 1)` of Python on the exact rational value: round `10 * x`
half-to-even and divide by ten. -/
def round1 (q : ℚ) : ℚ := (roundHalfEven (q * 10) : ℚ) / 10

/-- `int(x)` of Python on a number: truncation toward zero. -/
def pyTrunc (q : ℚ) : ℤ := if 0 ≤ q then ⌊q⌋ else ⌈q⌉

/-- `float(x)` on a decoded JSON value: numbers and booleans convert;
other shapes raise.  (Python additionally parses numeric strings; the
API fields in question are numbers and no claim exercises strings.) -/
def pyFloat : Json → Except PyErr ℚ
  | .num q => .ok q
  | .bool b => .ok (if b then 1 else 0)
  | _ => .error .typeError

/-- `int(x)` on a decoded JSON value: numbers truncate toward zero,
booleans convert; other shapes raise. -/
def pyIntCoerce : Json → Except PyErr ℤ
  | .num q => .ok (pyTrunc q)
  | .bool b => .ok (if b then 1 else 0)
  | _ => .error .typeError

/-- The flat record `parse_weather` builds (§3 of the spec): the values
of the five CSV columns, before any string rendering. -/
structure WeatherRecord where
  city : Json
  country : Json
  tempC : ℚ
  humidity : ℤ
  description : Json

/-- `data.get("sys") or {}` (and the same for `"main"`) followed by the
`.get` access: an absent key or a falsy value becomes `{}`; a dict is
used as is (a falsy dict is `[]` anyway); a truthy non-dict crashes on
`.get` with `AttributeError`. -/
def orEmptyDict : Option Json → Except PyErr (List (String × Json))
  | none => .ok []
  | some (.obj l) => .ok l
  | some v => if truthy v then .error .attributeError else .ok []

/-- `x or y` of Python on values. -/
def pyOr (a b : Json) : Json := if truthy a then a else b

/-- `weather_list = data.get("weather") or []` followed by
`(weather_list[0].get("description") if weather_list else "") or "n/a"`.
An absent/falsy `weather` gives the default `"n/a"`; a non-empty list
whose head is a dict looks up `description` (falling back to `"n/a"`
when that is absent, `None` or falsy); a non-empty list with a non-dict
head crashes on `.get`; a truthy non-list crashes when subscripted
(strings yield a one-character string and then crash on `.get`,
dicts raise `KeyError` for the key `0`, other scalars `TypeError`). -/
def descriptionOf : Option Json → Except PyErr Json
  | none => .ok (.str "n/a")
  | some (.arr []) => .ok (.str "n/a")
  | some (.arr (.obj w :: _)) => .ok (pyOr ((pyGet w "description").getD .null) (.str "n/a"))
  | some (.arr (_ :: _)) => .error .attributeError
  | some (.str s) => if s.isEmpty then .ok (.str "n/a") else .error .attributeError
  | some (.obj l) => if l.isEmpty then .ok (.str "n/a") else .error .keyError
  | some v => if truthy v then .error .typeError else .ok (.str "n/a")

/-- The message of the `ValueError` raised when temperature or humidity
is missing. -/
def malformedMsg : String := "API response missing temperature or humidity fields."

/-- Body of `parse_weather` on a dict, in source order: `name`, `sys`
(with its `country`), `main` (with `temp`/`humidity` read via `.get`,
where a stored `null` is Python `None`), `weather` with the description
defaulting, then the sanity check raising `ValueError` when temperature
or humidity is `None`, then the numeric conversions. -/
def parseFields (fs : List (String × Json)) : Except PyErr WeatherRecord :=
  let city := pyGetD fs "name" (.str "Unknown")
  match orEmptyDict (pyGet fs "sys") with
  | .error e => .error e
  | .ok sysF =>
    let country := pyGetD sysF "country" (.str "—")
    match orEmptyDict (pyGet fs "main") with
    | .error e => .error e
    | .ok mainF =>
      match descriptionOf (pyGet fs "weather") with
      | .error e => .error e
      | .ok description =>
        match pyGetNone mainF "temp", pyGetNone mainF "humidity" with
        | some tv, some hv =>
          match pyFloat tv with
          | .error e => .error e
          | .ok t =>
            match pyIntCoerce hv with
            | .error e => .error e
            | .ok hz => .ok ⟨city, country, round1 t, hz, description⟩
        | _, _ => .error (.valueError malformedMsg)

/-- `parse_weather`: extracts the record from the decoded response.  Its
argument is annotated `Dict[str, Any]` but `fetch_weather` can hand it
any decoded JSON value; a non-dict crashes on the first `.get`. -/
def parse_weather (data : Json) : Except PyErr WeatherRecord :=
  match data with
  | .obj fs => parseFields fs
  | _ => .error .attributeError

/-- One CSV line as its list of fields. -/
abbrev Row := List String

/-- The on-disk CSV file: `none` = does not exist, `some rows` = exists
with those lines (`some []` = zero-length). -/
abbrev FileState := Option (List Row)

/-- The fixed column order of `city_data.csv`. -/
def CSV_HEADERS : Row := ["City", "Country", "Temperature (C)", "Humidity (%)", "Description"]

/-- `write_row_to_csv`: open in append mode (creating the file when
missing), write the header first iff the file was missing or had size
zero, then exactly one data row.  The `OSError` fallback of the `stat`
call is outside the model (no OS failures). -/
def write_row_to_csv (row : Row) (st : FileState) : FileState :=
  let rows := match st with | none => [] | some rs => rs
  let writeHeader := match st with | none => true | some rs => rs.isEmpty
  some (rows ++ (if writeHeader then [CSV_HEADERS] else []) ++ [row])

/-- Index of the LAST occurrence of `k` in `l`, if any.  `csv.DictReader`
builds each row dict by assigning fieldnames in order, so with duplicate
header names the last occurrence wins. -/
def lastIdxOf : List String → String → Option ℕ
  | [], _ => none
  | a :: as, k =>
    match lastIdxOf as k with
    | some j => some (j + 1)
    | none => if a == k then some 0 else none

/-- `r.get(key, dflt)` on a `csv.DictReader` row dict built from header
`hdr` and raw fields `row`: `dflt` when `key` names no column; the
field value when present; the interpolation of the `None` restval when
the row is shorter than the header. -/
def reportCell (hdr row : List String) (key dflt : String) : String :=
  match lastIdxOf hdr key with
  | none => dflt
  | some j =>
    match row[j]? with
    | none => "None"
    | some v => v

/-- One per-row line of `read_and_report`:
`f" - {city}: {temp}°C"` with `city = r.get("City", "Unknown")` and
`temp = r.get("Temperature (C)", "n/a")`. -/
def reportLine (hdr row : List String) : String :=
  " - " ++ reportCell hdr row "City" "Unknown" ++ ": " ++ reportCell hdr row "Temperature (C)" "n/a" ++ "°C"

/-- The "nothing to report" message. -/
def noDataMsg : String := "No CSV data to report yet."

/-- `read_and_report` on the default path `city_data.csv`, returning the
printed lines.  A missing or zero-length file, and a file whose
`DictReader` yields no rows (the first line is the header and
`DictReader` skips blank lines), print only `noDataMsg`; otherwise the
count line then one line per row. -/
def read_and_report (st : FileState) : List String :=
  match st with
  | none => [noDataMsg]
  | some [] => [noDataMsg]
  | some (hdr :: rest) =>
    let rows := rest.filter (fun r => !r.isEmpty)
    if rows.isEmpty then [noDataMsg]
    else ("Entries in city_data.csv: " ++ toString rows.length) :: rows.map (reportLine hdr)

/-- Python `str(x)` of a one-decimal float as produced by
`round(_, 1)`: `str(15.3) = "15.3"`, `str(15.0) = "15.0"`.  Values whose
tenfold is not integral cannot come out of `round1`; their rendering is
approximated (no claim exercises it). -/
def tempStr (q : ℚ) : String :=
  if (q * 10).den = 1 then
    let z := (q * 10).num
    (if z < 0 then "-" else "") ++ toString (z.natAbs / 10) ++ "." ++ toString (z.natAbs % 10)
  else pyStr (.num q)

/-- The string the `csv` writer emits for one record value: `None`
becomes the empty field, everything else its `str()`. -/
def csvField : Json → String
  | .null => ""
  | v => pyStr v

/-- The CSV data row `csv.DictWriter` writes for a record, in
`CSV_HEADERS` order. -/
def renderRow (r : WeatherRecord) : Row :=
  [csvField r.city, csvField r.country, tempStr r.tempC, toString r.humidity, csvField r.description]

/-- The line `print_summary` prints. -/
def summaryLine (r : WeatherRecord) : String :=
  "\nWeather for " ++ pyStr r.city ++ ", " ++ pyStr r.country ++ ": " ++ pyStr r.description
    ++ " | Temp: " ++ tempStr r.tempC ++ "°C | Humidity: " ++ toString r.humidity ++ "%\n"

/-- Outcome of a completed run of `main` (no uncaught exception):
the process exit code, the final CSV file state, and the lines printed
after the city prompt. -/
structure MainResult where
  exitCode : ℕ
  file : FileState
  output : List String

/-- The source's `main` after credential and city are resolved (Lean
reserves the name `main` for executables), as a function of the HTTP
response and the initial CSV file state.  The `try` block covers
exactly `fetch_weather` and `parse_weather`; a `ValueError` from either
is printed with the `"Error: "` marker and exits with code 1, leaving
the file untouched; any other exception propagates uncaught.  On
success: print the summary, append the row, re-read and report, exit 0. -/
def mainRun (resp : HttpResponse) (st : FileState) : Except PyErr MainResult :=
  match fetch_weather resp with
  | .error (.valueError m) => .ok ⟨1, st, ["Error: " ++ m]⟩
  | .error e => .error e
  | .ok data =>
    match parse_weather data with
    | .error (.valueError m) => .ok ⟨1, st, ["Error: " ++ m]⟩
    | .error e => .error e
    | .ok r =>
      let st' := write_row_to_csv (renderRow r) st
      .ok ⟨0, st', summaryLine r :: read_and_report st'⟩

/-- ASCII model of Python's whitespace test used by `str.split` and
`str.strip` without arguments (space, tab, newline, carriage return,
vertical tab, form feed; further Unicode spaces are outside the model). -/
def isSpaceChar (c : Char) : Bool :=
  c.toNat = 32 || c.toNat = 9 || c.toNat = 10 || c.toNat = 13 || c.toNat = 11 || c.toNat = 12

/-- ASCII uppercase letter. -/
def isUpperCh (c : Char) : Bool := 65 ≤ c.toNat && c.toNat ≤ 90

/-- ASCII lowercase letter. -/
def isLowerCh (c : Char) : Bool := 97 ≤ c.toNat && c.toNat ≤ 122

/-- Cased character in the sense of `str.title` (ASCII model). -/
def isCased (c : Char) : Bool := isUpperCh c || isLowerCh c

/-- Lowercasing of one character (ASCII model of `str.lower`). -/
def lowerChar (c : Char) : Char :=
  if isUpperCh c then Char.ofNat (c.toNat + 32) else c

/-- Uppercasing of one character (ASCII model of `str.upper`). -/
def upperChar (c : Char) : Char :=
  if isLowerCh c then Char.ofNat (c.toNat - 32) else c

/-- `str.strip()` on the character list: drop whitespace from both ends. -/
def stripChars (l : List Char) : List Char :=
  ((l.dropWhile isSpaceChar).reverse.dropWhile isSpaceChar).reverse

/-- `str.strip()`. -/
def pyStrip (s : String) : String := String.mk (stripChars s.data)

/-- Worker for `str.split()` without arguments: `acc` holds the current
word reversed; maximal whitespace runs separate words, so no empty word
is ever produced. -/
def splitWsAux : List Char → List Char → List (List Char)
  | acc, [] => if acc.isEmpty then [] else [acc.reverse]
  | acc, c :: cs =>
    if isSpaceChar c then
      if acc.isEmpty then splitWsAux [] cs else acc.reverse :: splitWsAux [] cs
    else splitWsAux (c :: acc) cs

/-- `s.split()` of Python on the character list. -/
def pySplit (l : List Char) : List (List Char) := splitWsAux [] l

/-- `" ".join(words)` on character lists. -/
def joinWords : List (List Char) → List Char
  | [] => []
  | [w] => w
  | w :: ws => w ++ ' ' :: joinWords ws

/-- `str.title()` (ASCII model): a cased character is uppercased when the
previous character was not cased and lowercased otherwise; uncased
characters pass through and reset the word boundary. -/
def pyTitleAux : Bool → List Char → List Char
  | _, [] => []
  | prev, c :: cs =>
    if isCased c then (if prev then lowerChar c else upperChar c) :: pyTitleAux true cs
    else c :: pyTitleAux false cs

/-- `prompt_city` on one interactive attempt: strip the raw input; an
empty result re-prompts (`none`); otherwise normalize with
`" ".join(raw.split()).title()`. -/
def prompt_city (raw : String) : Option String :=
  let stripped := pyStrip raw
  if stripped = "" then none
  else some (String.mk (pyTitleAux false (joinWords (pySplit stripped.data))))

/-- The string's first character is whitespace (false when empty). -/
def firstIsWs : List Char → Bool
  | [] => false
  | c :: _ => isSpaceChar c

/-- The string's last character is whitespace (false when empty). -/
def lastIsWs (l : List Char) : Bool :=
  match l.getLast? with
  | some c => isSpaceChar c
  | none => false

/-- No two consecutive whitespace characters. -/
def noDoubleWs : List Char → Bool
  | a :: b :: t => !(isSpaceChar a && isSpaceChar b) && noDoubleWs (b :: t)
  | _ => true

/-- Title-cased in the sense of Python's `str.istitle` (ASCII model):
every cased character opening a cased run is uppercase, every other
cased character is lowercase. -/
def titledAux : Bool → List Char → Bool
  | _, [] => true
  | prev, c :: cs =>
    if isCased c then (if prev then isLowerCh c else isUpperCh c) && titledAux true cs
    else titledAux false cs

/-- The whole string is title-cased. -/
def isTitledL (l : List Char) : Bool := titledAux false l

/-! ## Helper lemmas -/

theorem write_row_to_csv_cons (a : Row) (l : List Row) (r : Row) :
    write_row_to_csv r (some (a :: l)) = some (a :: (l ++ [r])) := by
  simp [write_row_to_csv]

theorem foldl_write_cons (rows : List Row) : ∀ a l : _,
    List.foldl (fun s r => write_row_to_csv r s) (some (a :: l)) rows = some (a :: (l ++ rows)) := by
  induction rows with
  | nil => intro a l; simp
  | cons r rs ih =>
    intro a l
    rw [List.foldl_cons, write_row_to_csv_cons, ih]
    simp

theorem lastIdxOf_eq_none (l : List String) (k : String) (h : k ∉ l) :
    lastIdxOf l k = none := by
  induction l with
  | nil => rfl
  | cons a as ih =>
    simp only [List.mem_cons, not_or] at h
    have ha : ¬a = k := fun hak => h.1 hak.symm
    simp [lastIdxOf, ih h.2, beq_iff_eq, ha]

/-! ## Claim C3 -/

/-- Claim C3 as stated is false at N = 0: zero `write_row_to_csv` calls
leave a nonexistent file nonexistent, which does not contain a header
row. -/
theorem c3_counterexample :
    List.foldl (fun s r => write_row_to_csv r s) none ([] : List Row) = none ∧
    (none : FileState) ≠ some [CSV_HEADERS] := ⟨rfl, by simp⟩

/-- Claim C3, amended to N ≥ 1: N sequential `write_row_to_csv` calls
starting from a nonexistent (or zero-length) file yield exactly one
header row followed by the N data rows in insertion order, and a
further write against a non-empty file appends one data row without a
second header and without modifying existing content. -/
theorem c3_write_header_once (rows : List Row) (hne : rows ≠ []) :
    List.foldl (fun s r => write_row_to_csv r s) none rows = some (CSV_HEADERS :: rows) ∧
    List.foldl (fun s r => write_row_to_csv r s) (some []) rows = some (CSV_HEADERS :: rows) ∧
    (∀ (prior : List Row) (row : Row), prior ≠ [] →
      write_row_to_csv row (some prior) = some (prior ++ [row])) := by
  obtain ⟨r, rs, rfl⟩ := List.exists_cons_of_ne_nil hne
  refine ⟨?_, ?_, ?_⟩
  · rw [List.foldl_cons]
    have h1 : write_row_to_csv r none = some (CSV_HEADERS :: [r]) := by
      simp [write_row_to_csv]
    rw [h1, foldl_write_cons]
    simp
  · rw [List.foldl_cons]
    have h1 : write_row_to_csv r (some []) = some (CSV_HEADERS :: [r]) := by
      simp [write_row_to_csv]
    rw [h1, foldl_write_cons]
    simp
  · intro prior row hp
    obtain ⟨a, l, rfl⟩ := List.exists_cons_of_ne_nil hp
    rw [write_row_to_csv_cons]
    simp

/-- Witness for C3: two writes to a fresh file, then one append. -/
theorem c3_witness :
    List.foldl (fun s r => write_row_to_csv r s) none [["x"], ["y"]] =
      some [CSV_HEADERS, ["x"], ["y"]] ∧
    List.foldl (fun s r => write_row_to_csv r s) (some []) [["x"], ["y"]] =
      some [CSV_HEADERS, ["x"], ["y"]] ∧
    write_row_to_csv ["z"] (some [CSV_HEADERS, ["x"], ["y"]]) =
      some [CSV_HEADERS, ["x"], ["y"], ["z"]] := by
  have h := c3_write_header_once [["x"], ["y"]] (by simp)
  exact ⟨h.1, h.2.1, h.2.2 [CSV_HEADERS, ["x"], ["y"]] ["z"] (by simp)⟩

/-! ## Claim C6 -/

/-- Claim C6: on HTTP status 200, `fetch_weather` returns the decoded
JSON body of the response unmodified. -/
theorem c6_fetch_200 (resp : HttpResponse) (j : Json)
    (h200 : resp.status = 200) (hbody : resp.jsonBody = some j) :
    fetch_weather resp = .ok j := by
  simp [fetch_weather, h200, hbody]

/-- Witness for C6 at a concrete 200 response. -/
theorem c6_witness :
    fetch_weather ⟨200, some (Json.arr [Json.num 3])⟩ = .ok (Json.arr [Json.num 3]) :=
  c6_fetch_200 _ _ rfl rfl

/-! ## Claim C8 -/

/-- Claim C8: a missing or zero-length CSV file makes `read_and_report`
print exactly the "No CSV data to report yet." line and return without
any per-row output; and every run of `main` that reaches the reporting
stage (fetch and parse succeeded) completes with exit code 0, so this
path exits 0. -/
theorem c8_empty_report_exit0 :
    (read_and_report none = [noDataMsg] ∧ read_and_report (some []) = [noDataMsg]) ∧
    (∀ (resp : HttpResponse) (st : FileState) (data : Json) (r : WeatherRecord),
      fetch_weather resp = .ok data → parse_weather data = .ok r →
      mainRun resp st = .ok ⟨0, write_row_to_csv (renderRow r) st,
        summaryLine r :: read_and_report (write_row_to_csv (renderRow r) st)⟩) := by
  refine ⟨⟨rfl, rfl⟩, ?_⟩
  intro resp st data r hf hp
  simp [mainRun, hf, hp]

/-- Witness for C8: a concrete successful run from a nonexistent file. -/
theorem c8_witness :
    read_and_report none = [noDataMsg] ∧
    mainRun ⟨200, some (Json.obj [("main", Json.obj [("temp", Json.num 15), ("humidity", Json.num 72)])])⟩ none =
      .ok ⟨0,
        write_row_to_csv (renderRow ⟨Json.str "Unknown", Json.str "—", round1 15, pyTrunc 72, Json.str "n/a"⟩) none,
        summaryLine ⟨Json.str "Unknown", Json.str "—", round1 15, pyTrunc 72, Json.str "n/a"⟩ ::
          read_and_report (write_row_to_csv (renderRow ⟨Json.str "Unknown", Json.str "—", round1 15, pyTrunc 72, Json.str "n/a"⟩) none)⟩ :=
  ⟨c8_empty_report_exit0.1.1, c8_empty_report_exit0.2 _ _ _ _ rfl rfl⟩

/-! ## Claim C9 -/

/-- Claim C9: a non-empty CSV file with zero data rows (only a header,
possibly followed by blank lines, which `csv.DictReader` skips) makes
`read_and_report` print the same "No CSV data to report yet." line as
for an absent or empty file. -/
theorem c9_header_only (hdr : Row) (rest : List Row) (h : ∀ r ∈ rest, r = []) :
    read_and_report (some (hdr :: rest)) = [noDataMsg] := by
  have hf : rest.filter (fun r => !r.isEmpty) = [] := by
    rw [List.filter_eq_nil_iff]
    intro a ha
    simp [h a ha]
  simp [read_and_report, hf]

/-- Witness for C9: a file holding only the header row. -/
theorem c9_witness : read_and_report (some [CSV_HEADERS]) = [noDataMsg] :=
  c9_header_only CSV_HEADERS [] (by simp)

/-! ## Claim C4 -/

/-- Claim C4, amended: a 401 response fails with the invalid-credential
`ValueError`; a 404 response whose body is undecodable or decodes to a
JSON object fails with the not-found `ValueError`, carrying the body's
`message` field when present and "City not found." otherwise.  (The
restriction on the 404 body shape is forced by `c4_counterexample`.) -/
theorem c4_fetch_errors (resp : HttpResponse) :
    (resp.status = 401 →
      fetch_weather resp = .error (.valueError "Unauthorized (401): Invalid or missing API key.")) ∧
    (∀ (fs : List (String × Json)) (m : String),
      resp.status = 404 → resp.jsonBody = some (.obj fs) → pyGet fs "message" = some (.str m) →
      fetch_weather resp = .error (.valueError ("Not found (404): " ++ m))) ∧
    (∀ fs : List (String × Json),
      resp.status = 404 → resp.jsonBody = some (.obj fs) → pyGet fs "message" = none →
      fetch_weather resp = .error (.valueError "Not found (404): City not found.")) ∧
    (resp.status = 404 → resp.jsonBody = none →
      fetch_weather resp = .error (.valueError "Not found (404): City not found.")) := by
  refine ⟨?_, ?_, ?_, ?_⟩
  · intro h401
    simp [fetch_weather, h401]
  · intro fs m h404 hbody hmsg
    simp [fetch_weather, h404, hbody, pyGetD, hmsg, pyStr]
  · intro fs h404 hbody hmsg
    simp [fetch_weather, h404, hbody, pyGetD, hmsg, pyStr]
  · intro h404 hbody
    simp [fetch_weather, h404, hbody, pyGet, pyGetD, pyStr]

/-- Claim C4 as stated is false for a 404 response whose body decodes to
a JSON array: `data.get("message", ...)` crashes with `AttributeError`
instead of raising the not-found `ValueError`. -/
theorem c4_counterexample :
    fetch_weather ⟨404, some (Json.arr [])⟩ = .error .attributeError ∧
    PyErr.attributeError ≠ PyErr.valueError "Not found (404): City not found." := ⟨rfl, by simp⟩

/-- Witness for C4 at concrete 401 and 404 responses. -/
theorem c4_witness :
    fetch_weather ⟨401, none⟩ = .error (.valueError "Unauthorized (401): Invalid or missing API key.") ∧
    fetch_weather ⟨404, some (Json.obj [("message", Json.str "city not found")])⟩ =
      .error (.valueError ("Not found (404): " ++ "city not found")) ∧
    fetch_weather ⟨404, none⟩ = .error (.valueError "Not found (404): City not found.") :=
  ⟨(c4_fetch_errors _).1 rfl,
   (c4_fetch_errors _).2.1 _ "city not found" rfl rfl rfl,
   (c4_fetch_errors _).2.2.2 rfl rfl⟩

/-! ## Claim C7 -/

/-- Claim C7: for a CSV file with a header row and N ≥ 1 data rows,
`read_and_report` prints the count line naming N entries followed by
exactly the N per-row lines in file order; each line shows the row's
City and Temperature (C) values, and falls back to the placeholders
"Unknown" / "n/a" when the file has no such column. -/
theorem c7_report (hdr : Row) (rows : List Row) (hne : rows ≠ []) (hfull : ∀ r ∈ rows, r ≠ []) :
    read_and_report (some (hdr :: rows)) =
      ("Entries in city_data.csv: " ++ toString rows.length) :: rows.map (reportLine hdr) ∧
    (read_and_report (some (hdr :: rows))).length = rows.length + 1 ∧
    (∀ row : Row, "City" ∉ hdr → reportCell hdr row "City" "Unknown" = "Unknown") ∧
    (∀ row : Row, "Temperature (C)" ∉ hdr → reportCell hdr row "Temperature (C)" "n/a" = "n/a") ∧
    (∀ a b c d e : String, reportLine CSV_HEADERS [a, b, c, d, e] = " - " ++ a ++ ": " ++ c ++ "°C") := by
  have hfilter : rows.filter (fun r => !r.isEmpty) = rows := by
    rw [List.filter_eq_self]
    intro a ha
    simp [hfull a ha]
  have hmain : read_and_report (some (hdr :: rows)) =
      ("Entries in city_data.csv: " ++ toString rows.length) :: rows.map (reportLine hdr) := by
    simp [read_and_report, hfilter, hne]
  refine ⟨hmain, ?_, ?_, ?_, ?_⟩
  · rw [hmain]; simp
  · intro row hcity
    simp [reportCell, lastIdxOf_eq_none hdr _ hcity]
  · intro row htemp
    simp [reportCell, lastIdxOf_eq_none hdr _ htemp]
  · intro a b c d e
    rfl

/-- Witness for C7: a one-row file in the standard column order. -/
theorem c7_witness :
    read_and_report (some [CSV_HEADERS, ["Paris", "FR", "10.0", "50", "sunny"]]) =
      ["Entries in city_data.csv: 1", " - Paris: 10.0°C"] := by
  have h := c7_report CSV_HEADERS [["Paris", "FR", "10.0", "50", "sunny"]] (by simp) (by simp)
  rw [h.1]
  rfl

/-! ## Numeric lemmas for rounding and truncation -/

theorem roundHalfEven_close (x : ℚ) : |x - (roundHalfEven x : ℚ)| ≤ 1 / 2 := by
  unfold roundHalfEven
  have h0 : (0 : ℚ) ≤ x - (⌊x⌋ : ℚ) := sub_nonneg.mpr (Int.floor_le x)
  have h1 : x - (⌊x⌋ : ℚ) < 1 := by
    have := Int.lt_floor_add_one x
    linarith
  split_ifs with ha hb hc
  · exact abs_le.mpr ⟨by linarith, by linarith⟩
  · refine abs_le.mpr ⟨?_, ?_⟩ <;> push_cast <;> linarith
  · exact abs_le.mpr ⟨by linarith, by linarith⟩
  · refine abs_le.mpr ⟨?_, ?_⟩ <;> push_cast <;> linarith

theorem round1_close (q : ℚ) : |q - round1 q| ≤ 1 / 20 := by
  have h := roundHalfEven_close (q * 10)
  have heq : q - round1 q = (q * 10 - (roundHalfEven (q * 10) : ℚ)) / 10 := by
    unfold round1
    ring
  rw [heq, abs_div]
  rw [abs_of_nonneg (by norm_num : (0 : ℚ) ≤ 10)]
  linarith

theorem round1_is_tenth (q : ℚ) : ∃ z : ℤ, round1 q = (z : ℚ) / 10 :=
  ⟨roundHalfEven (q * 10), rfl⟩

theorem pyTrunc_close (q : ℚ) :
    |q - (pyTrunc q : ℚ)| < 1 ∧ |(pyTrunc q : ℚ)| ≤ |q| := by
  unfold pyTrunc
  split_ifs with hq
  · have h1 := Int.floor_le q
    have h2 := Int.lt_floor_add_one q
    have h3 : (0 : ℚ) ≤ (⌊q⌋ : ℚ) := by
      exact_mod_cast Int.floor_nonneg.mpr hq
    constructor
    · rw [abs_of_nonneg (by linarith)]
      linarith
    · rw [abs_of_nonneg h3, abs_of_nonneg hq]
      exact h1
  · push_neg at hq
    have h1 := Int.le_ceil q
    have h2 := Int.ceil_lt_add_one q
    have h3 : (⌈q⌉ : ℚ) ≤ 0 := by
      exact_mod_cast Int.ceil_le.mpr (by exact_mod_cast hq.le)
    constructor
    · rw [abs_of_nonpos (by linarith)]
      linarith
    · rw [abs_of_nonpos h3, abs_of_nonpos hq.le]
      linarith

/-! ## Claim C1 -/

/-- Claim C1: on a response of the expected shape with `main.temp` and
`main.humidity` present, `parse_weather` returns the record with City
from `name`, Country from `sys.country`, Description from
`weather[0].description`, the temperature rounded to one decimal place
(a multiple of 1/10 within 1/20 of the input) and the humidity
truncated toward zero to an integer (within 1 of the input and no
larger in absolute value). -/
theorem c1_parse_success (fs s m w : List (String × Json)) (ws : List Json)
    (nv cv : Json) (t h : ℚ) (d : String)
    (hname : pyGet fs "name" = some nv)
    (hsys : pyGet fs "sys" = some (.obj s))
    (hcountry : pyGet s "country" = some cv)
    (hmain : pyGet fs "main" = some (.obj m))
    (htemp : pyGet m "temp" = some (.num t))
    (hhum : pyGet m "humidity" = some (.num h))
    (hweather : pyGet fs "weather" = some (.arr (.obj w :: ws)))
    (hdesc : pyGet w "description" = some (.str d))
    (hd : d ≠ "") :
    parse_weather (.obj fs) = .ok ⟨nv, cv, round1 t, pyTrunc h, .str d⟩ ∧
    (∃ z : ℤ, round1 t = (z : ℚ) / 10) ∧
    |t - round1 t| ≤ 1 / 20 ∧
    |h - (pyTrunc h : ℚ)| < 1 ∧
    |(pyTrunc h : ℚ)| ≤ |h| := by
  refine ⟨?_, round1_is_tenth t, round1_close t, (pyTrunc_close h).1, (pyTrunc_close h).2⟩
  have hdne : (Json.str d) ≠ Json.str "" := by
    intro hcontra
    cases hcontra
    exact hd rfl
  simp [parse_weather, parseFields, hname, hsys, hmain, hweather, orEmptyDict,
    descriptionOf, pyGetNone, htemp, hhum, pyGetD, hcountry, hdesc,
    pyFloat, pyIntCoerce, pyOr, truthy, String.isEmpty_iff, hd]

/-- Witness for C1: the spec's worked example (§8). -/
theorem c1_witness :
    parse_weather (Json.obj
      [("name", Json.str "New York"),
       ("sys", Json.obj [("country", Json.str "US")]),
       ("main", Json.obj [("temp", Json.num (1534/100)), ("humidity", Json.num 72)]),
       ("weather", Json.arr [Json.obj [("description", Json.str "clear sky")]])]) =
      .ok ⟨Json.str "New York", Json.str "US", round1 (1534/100), pyTrunc 72, Json.str "clear sky"⟩ ∧
    round1 (1534/100) = 153 / 10 ∧
    pyTrunc 72 = 72 := by
  have h := c1_parse_success
    [("name", Json.str "New York"),
     ("sys", Json.obj [("country", Json.str "US")]),
     ("main", Json.obj [("temp", Json.num (1534/100)), ("humidity", Json.num 72)]),
     ("weather", Json.arr [Json.obj [("description", Json.str "clear sky")]])]
    [("country", Json.str "US")]
    [("temp", Json.num (1534/100)), ("humidity", Json.num 72)]
    [("description", Json.str "clear sky")] []
    (Json.str "New York") (Json.str "US") (1534/100) 72 "clear sky"
    rfl rfl rfl rfl rfl rfl rfl rfl (by decide)
  refine ⟨h.1, ?_, ?_⟩
  · norm_num [round1, roundHalfEven]
  · norm_num [pyTrunc]

/-! ## Claims C2 and C10: shape predicates -/

/-- Values on which `(x or {}).get(...)` cannot crash: absent keys,
falsy values, and dicts. -/
def dictLike : Option Json → Bool
  | none => true
  | some (.obj _) => true
  | some v => !truthy v

/-- Values on which the `weather` extraction cannot crash: absent keys,
falsy values, and lists whose first element (if any) is a dict. -/
def listLike : Option Json → Bool
  | none => true
  | some (.arr []) => true
  | some (.arr (.obj _ :: _)) => true
  | some (.arr (_ :: _)) => false
  | some v => !truthy v

/-- The fields of `data.get(key) or {}` when it cannot crash. -/
def objFieldsOf : Option Json → List (String × Json)
  | some (.obj l) => l
  | _ => []

/-- The dict `parse_weather` reads `temp` and `humidity` from. -/
def mainFieldsOf (fs : List (String × Json)) : List (String × Json) :=
  objFieldsOf (pyGet fs "main")

/-- `main.temp` or `main.humidity` is absent or `null` (Python `None`). -/
def missingTempHum (fs : List (String × Json)) : Bool :=
  (pyGetNone (mainFieldsOf fs) "temp").isNone || (pyGetNone (mainFieldsOf fs) "humidity").isNone

theorem orEmptyDict_of_dictLike (o : Option Json) (h : dictLike o = true) :
    orEmptyDict o = .ok (objFieldsOf o) := by
  match o with
  | none => rfl
  | some .null => rfl
  | some (.obj l) => rfl
  | some (.bool b) =>
    simp [dictLike, truthy] at h
    simp [orEmptyDict, objFieldsOf, truthy, h]
  | some (.num q) =>
    simp [dictLike, truthy] at h
    simp [orEmptyDict, objFieldsOf, truthy, h]
  | some (.str s) =>
    simp [dictLike, truthy] at h
    simp [orEmptyDict, objFieldsOf, truthy, h]
  | some (.arr xs) =>
    simp [dictLike, truthy] at h
    simp [orEmptyDict, objFieldsOf, truthy, h]

theorem descriptionOf_of_listLike (o : Option Json) (h : listLike o = true) :
    ∃ j : Json, descriptionOf o = .ok j := by
  match o with
  | none => exact ⟨_, rfl⟩
  | some .null => exact ⟨_, rfl⟩
  | some (.arr []) => exact ⟨_, rfl⟩
  | some (.arr (.obj w :: rest)) => exact ⟨_, rfl⟩
  | some (.arr (.null :: rest)) => simp [listLike] at h
  | some (.arr (.bool b :: rest)) => simp [listLike] at h
  | some (.arr (.num q :: rest)) => simp [listLike] at h
  | some (.arr (.str s :: rest)) => simp [listLike] at h
  | some (.arr (.arr xs :: rest)) => simp [listLike] at h
  | some (.bool b) =>
    simp [listLike, truthy] at h
    exact ⟨.str "n/a", by simp [descriptionOf, truthy, h]⟩
  | some (.num q) =>
    simp [listLike, truthy] at h
    exact ⟨.str "n/a", by simp [descriptionOf, truthy, h]⟩
  | some (.str s) =>
    simp [listLike, truthy] at h
    exact ⟨.str "n/a", by simp [descriptionOf, h]⟩
  | some (.obj l) =>
    simp [listLike, truthy] at h
    exact ⟨.str "n/a", by simp [descriptionOf, h]⟩

/-! ## Claim C2 -/

/-- Claim C2, amended: on a 200 response whose body is a JSON object in
which `sys`, `main` and `weather` are each absent, falsy or of the
expected shape (objects; `weather` a list whose first element is an
object) — the restriction forced by `c2_counterexample` — and in which
`main.temp` or `main.humidity` is absent or `null`, `parse_weather`
raises the malformed-response `ValueError`, the top level prints it
with the "Error: " marker and exits with code 1, and the CSV file state
is unchanged. -/
theorem c2_missing_fields (fs : List (String × Json))
    (hsysOk : dictLike (pyGet fs "sys") = true)
    (hmainOk : dictLike (pyGet fs "main") = true)
    (hweatherOk : listLike (pyGet fs "weather") = true)
    (hmiss : missingTempHum fs = true) :
    parse_weather (.obj fs) = .error (.valueError malformedMsg) ∧
    ∀ st : FileState, mainRun ⟨200, some (.obj fs)⟩ st = .ok ⟨1, st, ["Error: " ++ malformedMsg]⟩ := by
  have h1 := orEmptyDict_of_dictLike _ hsysOk
  have h2 := orEmptyDict_of_dictLike _ hmainOk
  obtain ⟨j, h3⟩ := descriptionOf_of_listLike _ hweatherOk
  have hparse : parse_weather (.obj fs) = .error (.valueError malformedMsg) := by
    simp only [parse_weather, parseFields, h1, h2, h3]
    cases ht : pyGetNone (objFieldsOf (pyGet fs "main")) "temp" <;>
      cases hh : pyGetNone (objFieldsOf (pyGet fs "main")) "humidity" <;>
      simp_all [missingTempHum, mainFieldsOf]
  refine ⟨hparse, fun st => ?_⟩
  simp [mainRun, fetch_weather, hparse]

/-- Claim C2 as stated is false when another field has an unexpected
shape: with `sys` bound to the number 5 (and `main.temp` missing), the
country extraction crashes with `AttributeError` before the sanity
check, so no malformed-response `ValueError` is raised and `main`'s
handler does not print an "Error: " line (the exception escapes). -/
theorem c2_counterexample :
    parse_weather (Json.obj [("sys", Json.num 5)]) = .error .attributeError ∧
    PyErr.attributeError ≠ PyErr.valueError malformedMsg ∧
    mainRun ⟨200, some (Json.obj [("sys", Json.num 5)])⟩ none = .error .attributeError := by
  refine ⟨?_, by simp, ?_⟩ <;> rfl

/-- Witness for C2 on a body whose `main` lacks `humidity`. -/
theorem c2_witness :
    parse_weather (Json.obj [("main", Json.obj [("temp", Json.num 15)])]) =
      .error (.valueError malformedMsg) ∧
    mainRun ⟨200, some (Json.obj [("main", Json.obj [("temp", Json.num 15)])])⟩ none =
      .ok ⟨1, none, ["Error: " ++ malformedMsg]⟩ := by
  have h := c2_missing_fields [("main", Json.obj [("temp", Json.num 15)])] rfl rfl rfl rfl
  exact ⟨h.1, h.2 none⟩

/-! ## Claim C10 -/

/-- A value a degraded-or-well-shaped `sys` / `main` key can hold:
absent, `null` (Python `None`), or a dict. -/
def objLike (o : Option Json) : Prop :=
  o = none ∨ o = some .null ∨ ∃ l : List (String × Json), o = some (.obj l)

/-- A value a degraded-or-well-shaped `weather` key can hold: absent,
`null`, the empty list, or a list whose first element is a dict. -/
def weatherLike (o : Option Json) : Prop :=
  o = none ∨ o = some .null ∨ o = some (.arr []) ∨
    ∃ (w : List (String × Json)) (rest : List Json), o = some (.arr (.obj w :: rest))

/-- `sys.country` is unavailable: `sys` absent, `null`, or a dict with
no `country` key. -/
def countryUnavailable (o : Option Json) : Prop :=
  o = none ∨ o = some .null ∨
    ∃ s : List (String × Json), o = some (.obj s) ∧ pyGet s "country" = none

/-- No non-empty description exists: `weather` absent, `null` or empty,
or its first element a dict whose `description` is absent, `null` or
the empty string. -/
def noDescription (o : Option Json) : Prop :=
  o = none ∨ o = some .null ∨ o = some (.arr []) ∨
    ∃ (w : List (String × Json)) (rest : List Json), o = some (.arr (.obj w :: rest)) ∧
      (pyGet w "description" = none ∨ pyGet w "description" = some .null ∨
       pyGet w "description" = some (.str ""))

/-- Claim C10: on any mapping in which each of `sys`, `main`, `weather`
is absent, null, or a dict/list of the expected kind (any mixture, and
whatever numeric temperature/humidity values are present),
`parse_weather` never raises an attribute/type error on those fields:
it fails — with exactly the malformed-response `ValueError` — precisely
when temperature or humidity is missing, and otherwise succeeds,
substituting City "Unknown" when `name` is absent, Country "—" when
`sys.country` is unavailable, and Description "n/a" when no non-empty
description exists. -/
theorem c10_shape_defaults (fs : List (String × Json))
    (hsys : objLike (pyGet fs "sys"))
    (hmain : objLike (pyGet fs "main"))
    (hweather : weatherLike (pyGet fs "weather"))
    (htv : ∀ v : Json, pyGetNone (mainFieldsOf fs) "temp" = some v → ∃ q : ℚ, v = .num q)
    (hhv : ∀ v : Json, pyGetNone (mainFieldsOf fs) "humidity" = some v → ∃ q : ℚ, v = .num q) :
    (missingTempHum fs = true → parse_weather (.obj fs) = .error (.valueError malformedMsg)) ∧
    (missingTempHum fs = false → ∃ r : WeatherRecord, parse_weather (.obj fs) = .ok r ∧
      (pyGet fs "name" = none → r.city = .str "Unknown") ∧
      (countryUnavailable (pyGet fs "sys") → r.country = .str "—") ∧
      (noDescription (pyGet fs "weather") → r.description = .str "n/a")) ∧
    (∀ e : PyErr, parse_weather (.obj fs) = .error e → e = .valueError malformedMsg) := by
  have hsys' : orEmptyDict (pyGet fs "sys") = .ok (objFieldsOf (pyGet fs "sys")) := by
    rcases hsys with hs | hs | ⟨s, hs⟩ <;> rw [hs] <;> rfl
  have hmain' : orEmptyDict (pyGet fs "main") = .ok (objFieldsOf (pyGet fs "main")) := by
    rcases hmain with hm | hm | ⟨l, hm⟩ <;> rw [hm] <;> rfl
  obtain ⟨dj, hdj, hdjna⟩ : ∃ dj : Json, descriptionOf (pyGet fs "weather") = .ok dj ∧
      (noDescription (pyGet fs "weather") → dj = .str "n/a") := by
    rcases hweather with hw | hw | hw | ⟨w, rest, hw⟩
    · exact ⟨.str "n/a", by rw [hw]; rfl, fun _ => rfl⟩
    · exact ⟨.str "n/a", by rw [hw]; rfl, fun _ => rfl⟩
    · exact ⟨.str "n/a", by rw [hw]; rfl, fun _ => rfl⟩
    · refine ⟨pyOr ((pyGet w "description").getD .null) (.str "n/a"), by rw [hw]; rfl, ?_⟩
      intro hnd
      rcases hnd with h' | h' | h' | ⟨w', rest', h', hd⟩
      · rw [hw] at h'; cases h'
      · rw [hw] at h'; cases h'
      · rw [hw] at h'; cases h'
      · rw [hw] at h'
        obtain ⟨hw', -⟩ : Json.obj w = Json.obj w' ∧ rest = rest' := by
          have := Option.some.inj h'
          simp only [Json.arr.injEq, List.cons.injEq] at this
          exact this
        obtain rfl : w = w' := by
          simpa [Json.obj.injEq] using hw'
        rcases hd with hd | hd | hd
        · simp [hd, pyOr, truthy]
        · simp [hd, pyOr, truthy]
        · simp [hd, pyOr, truthy]
          decide
  have hA : missingTempHum fs = true →
      parse_weather (.obj fs) = .error (.valueError malformedMsg) := by
    intro hmiss
    simp only [parse_weather, parseFields, hsys', hmain', hdj]
    cases ht : pyGetNone (objFieldsOf (pyGet fs "main")) "temp" <;>
      cases hh : pyGetNone (objFieldsOf (pyGet fs "main")) "humidity" <;>
      simp_all [missingTempHum, mainFieldsOf]
  have hB : missingTempHum fs = false → ∃ r : WeatherRecord, parse_weather (.obj fs) = .ok r ∧
      (pyGet fs "name" = none → r.city = .str "Unknown") ∧
      (countryUnavailable (pyGet fs "sys") → r.country = .str "—") ∧
      (noDescription (pyGet fs "weather") → r.description = .str "n/a") := by
    intro hmiss
    simp only [missingTempHum, Bool.or_eq_false_iff, Option.isNone_eq_false_iff,
      Option.isSome_iff_exists] at hmiss
    obtain ⟨⟨tv, ht⟩, ⟨hv, hh⟩⟩ := hmiss
    obtain ⟨t, rfl⟩ := htv tv ht
    obtain ⟨q, rfl⟩ := hhv hv hh
    simp only [mainFieldsOf] at ht hh
    refine ⟨⟨pyGetD fs "name" (.str "Unknown"),
      pyGetD (objFieldsOf (pyGet fs "sys")) "country" (.str "—"), round1 t, pyTrunc q, dj⟩,
      ?_, ?_, ?_, ?_⟩
    · simp only [parse_weather, parseFields, hsys', hmain', hdj, ht, hh]
      simp [pyFloat, pyIntCoerce]
    · intro hn
      simp [pyGetD, hn]
    · intro hcu
      rcases hcu with hs | hs | ⟨s, hs, hc⟩
      · rw [hs]; rfl
      · rw [hs]; rfl
      · show pyGetD (objFieldsOf (pyGet fs "sys")) "country" (.str "—") = .str "—"
        rw [hs]
        simp [objFieldsOf, pyGetD, hc]
    · exact hdjna
  refine ⟨hA, hB, ?_⟩
  intro e he
  cases hmiss : missingTempHum fs with
  | true =>
    have h1 := (hA hmiss).symm.trans he
    injection h1 with h2
    exact h2.symm
  | false =>
    obtain ⟨r, hr, -⟩ := hB hmiss
    rw [hr] at he
    exact Except.noConfusion he

/-- Witness for C10 at two concrete bodies: the empty mapping (`sys`,
`main`, `weather` all absent — failing with exactly the malformed
error) and a body with only a well-formed `main` (succeeding with all
three defaults). -/
theorem c10_witness :
    parse_weather (Json.obj []) = .error (.valueError malformedMsg) ∧
    ∃ r : WeatherRecord,
      parse_weather (Json.obj [("main", Json.obj [("temp", Json.num 20), ("humidity", Json.num 3)])]) = .ok r ∧
      r.city = Json.str "Unknown" ∧ r.country = Json.str "—" ∧ r.description = Json.str "n/a" := by
  have h1 := c10_shape_defaults [] (Or.inl rfl) (Or.inl rfl) (Or.inl rfl)
    (fun v hv => nomatch hv) (fun v hv => nomatch hv)
  have h2 := c10_shape_defaults [("main", Json.obj [("temp", Json.num 20), ("humidity", Json.num 3)])]
    (Or.inl rfl)
    (Or.inr (Or.inr ⟨[("temp", Json.num 20), ("humidity", Json.num 3)], rfl⟩))
    (Or.inl rfl)
    (fun v hv => ⟨20, (Option.some.inj hv).symm⟩)
    (fun v hv => ⟨3, (Option.some.inj hv).symm⟩)
  obtain ⟨r, hr, hc, hco, hd⟩ := h2.2.1 rfl
  exact ⟨h1.1 rfl, r, hr, hc rfl, hco (Or.inl rfl), hd (Or.inl rfl)⟩

/-! ## Character lemmas for the normalization claim -/

theorem charOfNat_toNat (n : ℕ) (h : n < 55296) : (Char.ofNat n).toNat = n := by
  have hv : Nat.isValidChar n := Or.inl h
  simp only [Char.ofNat, hv, dite_true, dif_pos]
  simp [Char.ofNatAux, Char.toNat, UInt32.toNat]

theorem isUpperCh_iff (c : Char) : isUpperCh c = true ↔ 65 ≤ c.toNat ∧ c.toNat ≤ 90 := by
  simp [isUpperCh, Bool.and_eq_true, decide_eq_true_eq]

theorem isLowerCh_iff (c : Char) : isLowerCh c = true ↔ 97 ≤ c.toNat ∧ c.toNat ≤ 122 := by
  simp [isLowerCh, Bool.and_eq_true, decide_eq_true_eq]

theorem isCased_cases (c : Char) (h : isCased c = true) :
    isUpperCh c = true ∨ isLowerCh c = true := by
  simpa [isCased, Bool.or_eq_true] using h

theorem isSpaceChar_eq_false_of_range (c : Char) (h : 65 ≤ c.toNat ∧ c.toNat ≤ 122) :
    isSpaceChar c = false := by
  simp only [isSpaceChar, Bool.or_eq_false_iff, decide_eq_false_iff_not]
  omega

theorem cased_not_space (c : Char) (h : isCased c = true) : isSpaceChar c = false := by
  rcases isCased_cases c h with hu | hl
  · exact isSpaceChar_eq_false_of_range c (by have := (isUpperCh_iff c).mp hu; omega)
  · exact isSpaceChar_eq_false_of_range c (by have := (isLowerCh_iff c).mp hl; omega)

theorem lowerChar_lower (c : Char) (h : isCased c = true) : isLowerCh (lowerChar c) = true := by
  unfold lowerChar
  by_cases hu : isUpperCh c = true
  · rw [if_pos hu]
    have hb := (isUpperCh_iff c).mp hu
    rw [isLowerCh_iff, charOfNat_toNat _ (by omega)]
    omega
  · rw [if_neg hu]
    rcases isCased_cases c h with hu' | hl
    · exact absurd hu' hu
    · exact hl

theorem upperChar_upper (c : Char) (h : isCased c = true) : isUpperCh (upperChar c) = true := by
  unfold upperChar
  by_cases hl : isLowerCh c = true
  · rw [if_pos hl]
    have hb := (isLowerCh_iff c).mp hl
    rw [isUpperCh_iff, charOfNat_toNat _ (by omega)]
    omega
  · rw [if_neg hl]
    rcases isCased_cases c h with hu | hl'
    · exact hu
    · exact absurd hl' hl

theorem lowerChar_not_space (c : Char) (h : isCased c = true) :
    isSpaceChar (lowerChar c) = false :=
  isSpaceChar_eq_false_of_range _ (by have := (isLowerCh_iff _).mp (lowerChar_lower c h); omega)

theorem upperChar_not_space (c : Char) (h : isCased c = true) :
    isSpaceChar (upperChar c) = false :=
  isSpaceChar_eq_false_of_range _ (by have := (isUpperCh_iff _).mp (upperChar_upper c h); omega)

/-! ## Title-casing preserves the whitespace profile -/

theorem pyTitleAux_space_map (l : List Char) :
    ∀ b : Bool, (pyTitleAux b l).map isSpaceChar = l.map isSpaceChar := by
  induction l with
  | nil => intro b; rfl
  | cons c cs ih =>
    intro b
    by_cases hc : isCased c = true
    · have h1 := lowerChar_not_space c hc
      have h2 := upperChar_not_space c hc
      have h3 := cased_not_space c hc
      cases b <;> simp [pyTitleAux, hc, h1, h2, h3, ih]
    · simp [pyTitleAux, hc, ih]

theorem titledAux_pyTitleAux (l : List Char) :
    ∀ b : Bool, titledAux b (pyTitleAux b l) = true := by
  induction l with
  | nil => intro b; rfl
  | cons c cs ih =>
    intro b
    by_cases hc : isCased c = true
    · cases b with
      | false =>
        have h1 := upperChar_upper c hc
        have h2 : isCased (upperChar c) = true := by simp [isCased, h1]
        simp [pyTitleAux, titledAux, hc, h1, h2, ih true]
      | true =>
        have h1 := lowerChar_lower c hc
        have h2 : isCased (lowerChar c) = true := by simp [isCased, h1]
        simp [pyTitleAux, titledAux, hc, h1, h2, ih true]
    · simp [pyTitleAux, titledAux, hc, ih false]

/-! ## Whitespace-profile views of the output predicates -/

/-- `noDoubleWs` seen on the whitespace profile. -/
def noDouble : List Bool → Bool
  | b :: c :: t => !(b && c) && noDouble (c :: t)
  | _ => true

theorem noDoubleWs_eq_map : ∀ l : List Char, noDoubleWs l = noDouble (l.map isSpaceChar)
  | [] => rfl
  | [_] => rfl
  | a :: b :: t => by
    have ih := noDoubleWs_eq_map (b :: t)
    simp only [noDoubleWs, noDouble, List.map_cons] at ih ⊢
    rw [ih]

theorem firstIsWs_eq_map (l : List Char) : firstIsWs l = (l.map isSpaceChar).headD false := by
  cases l <;> rfl

theorem lastIsWs_eq_map (l : List Char) :
    lastIsWs l = ((l.map isSpaceChar).getLast?).getD false := by
  rw [List.getLast?_map]
  unfold lastIsWs
  cases l.getLast? <;> rfl

/-! ## Properties of `split` and `join` -/

theorem splitWsAux_words (l : List Char) :
    ∀ acc : List Char, (∀ c ∈ acc, isSpaceChar c = false) →
    ∀ w ∈ splitWsAux acc l, w ≠ [] ∧ ∀ c ∈ w, isSpaceChar c = false := by
  induction l with
  | nil =>
    intro acc hacc w hw
    unfold splitWsAux at hw
    by_cases he : acc.isEmpty
    · simp [he] at hw
    · simp [he] at hw
      subst hw
      have hne : acc ≠ [] := by simpa [List.isEmpty_iff] using he
      refine ⟨by simpa using hne, ?_⟩
      intro x hx
      exact hacc x (List.mem_reverse.mp hx)
  | cons c cs ih =>
    intro acc hacc w hw
    unfold splitWsAux at hw
    by_cases hs : isSpaceChar c = true
    · rw [if_pos hs] at hw
      by_cases he : acc.isEmpty
      · rw [if_pos he] at hw
        exact ih [] (by intro x hx; cases hx) w hw
      · rw [if_neg he] at hw
        rcases List.mem_cons.mp hw with rfl | hw'
        · have hne : acc ≠ [] := by simpa [List.isEmpty_iff] using he
          refine ⟨by simpa using hne, ?_⟩
          intro x hx
          exact hacc x (List.mem_reverse.mp hx)
        · exact ih [] (by intro x hx; cases hx) w hw'
    · rw [if_neg hs] at hw
      refine ih (c :: acc) ?_ w hw
      intro x hx
      rcases List.mem_cons.mp hx with rfl | hx'
      · exact Bool.eq_false_iff.mpr hs
      · exact hacc x hx'

theorem splitWsAux_ne_nil (l : List Char) :
    ∀ acc : List Char, (acc ≠ [] ∨ ∃ c ∈ l, isSpaceChar c = false) →
    splitWsAux acc l ≠ [] := by
  induction l with
  | nil =>
    intro acc h
    rcases h with hne | ⟨c, hc, _⟩
    · unfold splitWsAux
      rw [if_neg (by simpa [List.isEmpty_iff] using hne)]
      simp
    · cases hc
  | cons c cs ih =>
    intro acc h
    unfold splitWsAux
    by_cases hs : isSpaceChar c = true
    · rw [if_pos hs]
      by_cases he : acc.isEmpty
      · rw [if_pos he]
        apply ih []
        right
        rcases h with hne | ⟨x, hx, hxs⟩
        · exact absurd (List.isEmpty_iff.mp he) hne
        · rcases List.mem_cons.mp hx with rfl | hx'
          · rw [hs] at hxs; cases hxs
          · exact ⟨x, hx', hxs⟩
      · rw [if_neg he]
        simp
    · rw [if_neg hs]
      exact ih (c :: acc) (Or.inl (by simp))

theorem mem_dropWhile_not_space (l : List Char) :
    ∀ c : Char, c ∈ l → isSpaceChar c = false → c ∈ l.dropWhile isSpaceChar := by
  induction l with
  | nil => intro c hc; cases hc
  | cons a t ih =>
    intro c hc hcs
    rw [List.dropWhile_cons]
    by_cases ha : isSpaceChar a = true
    · rw [if_pos ha]
      rcases List.mem_cons.mp hc with rfl | hct
      · rw [ha] at hcs; cases hcs
      · exact ih c hct hcs
    · rw [if_neg ha]
      exact hc

theorem allNonWs_noDoubleWs : ∀ l : List Char,
    (∀ c ∈ l, isSpaceChar c = false) → noDoubleWs l = true
  | [] => fun _ => rfl
  | [_] => fun _ => rfl
  | a :: b :: t => fun h => by
    have ha := h a (by simp)
    have ih := allNonWs_noDoubleWs (b :: t) (fun c hc => h c (List.mem_cons_of_mem a hc))
    simp [noDoubleWs, ha, ih]

theorem noDoubleWs_append : ∀ xs ys : List Char, noDoubleWs xs = true → noDoubleWs ys = true →
    (∀ a b : Char, xs.getLast? = some a → ys.head? = some b →
      (isSpaceChar a && isSpaceChar b) = false) →
    noDoubleWs (xs ++ ys) = true
  | [], ys => fun _ hy _ => by simpa using hy
  | [a], ys => fun _ hy hb => by
    cases ys with
    | nil => rfl
    | cons b ys' =>
      have h1 := hb a b rfl rfl
      simp [noDoubleWs, h1, hy]
  | a :: b :: t, ys => fun hx hy hb => by
    have hd : noDoubleWs (a :: b :: t) = (!(isSpaceChar a && isSpaceChar b) && noDoubleWs (b :: t)) := rfl
    rw [hd] at hx
    cases hab : (isSpaceChar a && isSpaceChar b) with
    | true =>
      rw [hab] at hx
      simp at hx
    | false =>
      rw [hab] at hx
      simp only [Bool.not_false, Bool.true_and] at hx
      have ih := noDoubleWs_append (b :: t) ys hx hy
        (fun x y hxl hyh => hb x y (by rw [List.getLast?_cons_cons]; exact hxl) hyh)
      simp only [List.cons_append] at ih ⊢
      simp [noDoubleWs, hab, ih]

theorem lastIsWs_append_right (xs ys : List Char) (h : ys ≠ []) :
    lastIsWs (xs ++ ys) = lastIsWs ys := by
  unfold lastIsWs
  rw [List.getLast?_append]
  cases hgl : ys.getLast? with
  | some x => simp
  | none => exact absurd (List.getLast?_eq_none_iff.mp hgl) h

theorem joinWords_props : ∀ ws : List (List Char),
    (∀ w ∈ ws, w ≠ [] ∧ ∀ c ∈ w, isSpaceChar c = false) → ws ≠ [] →
    joinWords ws ≠ [] ∧ firstIsWs (joinWords ws) = false ∧ lastIsWs (joinWords ws) = false ∧
      noDoubleWs (joinWords ws) = true
  | [] => fun _ h => absurd rfl h
  | [w] => fun hw _ => by
    obtain ⟨hne, hall⟩ := hw w (by simp)
    refine ⟨by simpa [joinWords] using hne, ?_, ?_, ?_⟩
    · obtain ⟨c, t, rfl⟩ := List.exists_cons_of_ne_nil hne
      simpa [joinWords, firstIsWs] using hall c (by simp)
    · show lastIsWs w = false
      unfold lastIsWs
      cases hgl : w.getLast? with
      | none => rfl
      | some x => exact hall x (List.mem_of_mem_getLast? hgl)
    · exact allNonWs_noDoubleWs w hall
  | w :: w' :: ws' => fun hw _ => by
    obtain ⟨hne, hall⟩ := hw w (by simp)
    have ih := joinWords_props (w' :: ws') (fun u hu => hw u (List.mem_cons_of_mem w hu)) (by simp)
    obtain ⟨ihne, ihfirst, ihlast, ihnd⟩ := ih
    obtain ⟨a, j', hj'⟩ := List.exists_cons_of_ne_nil ihne
    have hja : isSpaceChar a = false := by
      rw [hj'] at ihfirst
      simpa [firstIsWs] using ihfirst
    have hjoin : joinWords (w :: w' :: ws') = w ++ ' ' :: joinWords (w' :: ws') := rfl
    refine ⟨?_, ?_, ?_, ?_⟩
    · rw [hjoin]
      simp [hne]
    · rw [hjoin]
      obtain ⟨c, t, rfl⟩ := List.exists_cons_of_ne_nil hne
      simpa [firstIsWs] using hall c (by simp)
    · rw [hjoin, lastIsWs_append_right _ _ (by simp)]
      rw [hj'] at ihlast ⊢
      unfold lastIsWs at ihlast ⊢
      rw [List.getLast?_cons_cons]
      exact ihlast
    · rw [hjoin]
      apply noDoubleWs_append
      · exact allNonWs_noDoubleWs w hall
      · rw [hj'] at ihnd ⊢
        simp [noDoubleWs, hja, ihnd]
      · intro x y hxl hyh
        have hx : x ∈ w := List.mem_of_mem_getLast? hxl
        have hxs := hall x hx
        simp [hxs]

/-! ## Claim C5 -/

/-- Claim C5: for every raw city input containing at least one
non-whitespace character, `prompt_city` accepts it and the normalization
`" ".join(raw.split()).title()` returns a non-empty string that is
title-cased, has no leading or trailing whitespace, and contains no run
of two or more consecutive whitespace characters. -/
theorem c5_normalization (raw : String)
    (h : ∃ c ∈ raw.data, isSpaceChar c = false) :
    ∃ s : String, prompt_city raw = some s ∧ s ≠ "" ∧ firstIsWs s.data = false ∧
      lastIsWs s.data = false ∧ noDoubleWs s.data = true ∧ isTitledL s.data = true := by
  obtain ⟨c, hc, hcs⟩ := h
  have hc1 : c ∈ stripChars raw.data := by
    unfold stripChars
    rw [List.mem_reverse]
    refine mem_dropWhile_not_space _ c ?_ hcs
    rw [List.mem_reverse]
    exact mem_dropWhile_not_space _ c hc hcs
  have hdata : (pyStrip raw).data = stripChars raw.data := rfl
  have hstrne : pyStrip raw ≠ "" := by
    intro hcontra
    have h0 : stripChars raw.data = [] := by
      rw [← hdata, hcontra]
    rw [h0] at hc1
    exact (List.not_mem_nil c) hc1
  have hpc : prompt_city raw =
      some (String.mk (pyTitleAux false (joinWords (pySplit (pyStrip raw).data)))) := by
    unfold prompt_city
    rw [if_neg hstrne]
  have hwords := splitWsAux_words (pyStrip raw).data [] (by intro x hx; cases hx)
  have hwne : pySplit (pyStrip raw).data ≠ [] := by
    refine splitWsAux_ne_nil _ [] (Or.inr ⟨c, ?_, hcs⟩)
    rw [hdata]
    exact hc1
  obtain ⟨hjne, hjfirst, hjlast, hjnd⟩ := joinWords_props _ hwords hwne
  have hmap := pyTitleAux_space_map (joinWords (pySplit (pyStrip raw).data)) false
  refine ⟨String.mk (pyTitleAux false (joinWords (pySplit (pyStrip raw).data))), hpc, ?_, ?_, ?_, ?_, ?_⟩
  · intro hcontra
    have h0 : pyTitleAux false (joinWords (pySplit (pyStrip raw).data)) = [] :=
      congrArg String.data hcontra
    have hlen := congrArg List.length hmap
    rw [h0] at hlen
    simp at hlen
    exact hjne (List.length_eq_zero.mp hlen.symm)
  · show firstIsWs (pyTitleAux false (joinWords (pySplit (pyStrip raw).data))) = false
    rw [firstIsWs_eq_map, hmap, ← firstIsWs_eq_map]
    exact hjfirst
  · show lastIsWs (pyTitleAux false (joinWords (pySplit (pyStrip raw).data))) = false
    rw [lastIsWs_eq_map, hmap, ← lastIsWs_eq_map]
    exact hjlast
  · show noDoubleWs (pyTitleAux false (joinWords (pySplit (pyStrip raw).data))) = true
    rw [noDoubleWs_eq_map, hmap, ← noDoubleWs_eq_map]
    exact hjnd
  · exact titledAux_pyTitleAux _ false

/-- Witness for C5: the spec's worked example "  new   york" normalizes
to "New York" with all guarantees. -/
theorem c5_witness :
    prompt_city "  new   york" = some "New York" ∧
    (∃ s : String, prompt_city "  new   york" = some s ∧ s ≠ "" ∧ firstIsWs s.data = false ∧
      lastIsWs s.data = false ∧ noDoubleWs s.data = true ∧ isTitledL s.data = true) :=
  ⟨by decide, c5_normalization "  new   york" (by decide)⟩
